import Mathlib

/-!
Verification development for the AI Q&A dashboard repository.

Shallow embedding of the retrieval-augmented answer pipeline:
`src/ai_service.py` (classifier, retriever, generator, formatters),
`src/mcp_qa_server.py` (`QADatabase.search_qa`) and the formatting
dispatch of `ask_ai` in `src/web_app_with_replies.py`.

Texts are modelled as `List Char`.  Python's `str.lower` is modelled as
the character-wise `Char.toLower`; the two agree on ASCII, and both are
the identity on the Hangul characters that make up every keyword and
template in the source.  Python regular expressions are embedded as
explicit deterministic scanners; each scanner's doc comment records the
regex it embeds and why the greedy/lazy semantics of that regex are
captured without backtracking.
-/

set_option maxRecDepth 20000

namespace AiQa

/-! ### Character classes used by the source's regexes -/

/-- Python `\s` (whitespace) over the character set appearing in this code base. -/
def spaceChar (c : Char) : Bool :=
  c == ' ' || c == '\t' || c == '\n' || c == '\x0d' || c == '\x0b' || c == '\x0c'

/-- The operator class `[+\-*/=]` of `format_math_answer`'s wrapping patterns. -/
def opChar (c : Char) : Bool :=
  c == '+' || c == '-' || c == '*' || c == '/' || c == '='

/-- Python `\w`.  `Char.isAlphanum` covers `[a-zA-Z0-9]`, plus `_`, plus the
Hangul syllables appearing in this repository's strings.  (Python's `\w` also
matches other Unicode letters; the inputs handled here contain only ASCII and
Hangul syllables, on which this model agrees with Python.) -/
def wordChar (c : Char) : Bool :=
  c.isAlphanum || c == '_' || (0xAC00 ≤ c.toNat && c.toNat ≤ 0xD7A3)

/-- The fixed glyph alternation `(∫|∑|∏|√|∞|π|α|β|γ|δ|θ|λ|μ|σ|φ|ψ|ω)` of the
third math wrapping pattern. -/
def mathGlyph (c : Char) : Bool :=
  ['∫', '∑', '∏', '√', '∞', 'π', 'α', 'β', 'γ', 'δ', 'θ', 'λ', 'μ', 'σ', 'φ', 'ψ', 'ω'].contains c

/-! ### Substring containment (Python's `in` on strings) -/

/-- `isPrefixCh n h` : the needle `n` is a prefix of `h`. -/
def isPrefixCh : List Char → List Char → Bool
  | [], _ => true
  | _ :: _, [] => false
  | a :: as, b :: bs => a == b && isPrefixCh as bs

/-- `containsSub n h` : the needle `n` occurs as a contiguous substring of `h`;
this models Python's `n in h` on strings. -/
def containsSub (needle : List Char) : List Char → Bool
  | [] => isPrefixCh needle []
  | b :: bs => isPrefixCh needle (b :: bs) || containsSub needle bs

/-- Python `str.lower`, character-wise (see module comment). -/
def lowerCh (s : List Char) : List Char := s.map Char.toLower

/-! ### Category classifier — `RAGService.classify_question_category`
(src/ai_service.py lines 30-52) -/

def math_keywords : List (List Char) :=
  ["수학", "계산", "공식", "방정식", "함수", "미분", "적분", "기하", "대수"].map String.data

def science_keywords : List (List Char) :=
  ["과학", "물리", "화학", "생물", "실험", "원리", "법칙"].map String.data

def programming_keywords : List (List Char) :=
  ["프로그래밍", "코딩", "파이썬", "자바스크립트", "알고리즘", "데이터베이스"].map String.data

def korean_keywords : List (List Char) :=
  ["국어", "문법", "맞춤법", "문학", "작문"].map String.data

def english_keywords : List (List Char) :=
  ["영어", "문법", "단어", "독해", "회화"].map String.data

/-- `RAGService.classify_question_category`: lower-case the question, then
return the first category (in source order Math, Science, Programming,
Korean, English) one of whose keywords occurs in the question, else `일반`. -/
def classify_question_category (question : List Char) : List Char :=
  let question_lower := lowerCh question
  if math_keywords.any (fun k => containsSub k question_lower) then "수학".data
  else if science_keywords.any (fun k => containsSub k question_lower) then "과학".data
  else if programming_keywords.any (fun k => containsSub k question_lower) then "프로그래밍".data
  else if korean_keywords.any (fun k => containsSub k question_lower) then "국어".data
  else if english_keywords.any (fun k => containsSub k question_lower) then "영어".data
  else "일반".data

/-! ### Data model -/

/-- `QAEntry` (src/mcp_qa_server.py lines 36-44): a stored Q&A record. -/
structure QAEntry where
  id : List Char
  question : List Char
  answer : List Char
  category : List Char
  created_at : List Char
  updated_at : List Char
  tags : List (List Char)
deriving DecidableEq

/-- A context item, the dict built by `RAGService.search_relevant_qa`
(src/ai_service.py lines 61-69). -/
structure ContextItem where
  question : List Char
  answer : List Char
  category : List Char
  tags : List (List Char)
deriving DecidableEq

/-- `AIResponse` (src/ai_service.py lines 14-20).  The float `confidence`
is modelled as an exact rational. -/
structure AIResponse where
  answer : List Char
  confidence : ℚ
  category : List Char
  sources : List (List Char)
  reasoning : List Char
deriving DecidableEq

/-! ### Store search — `QADatabase.search_qa` (src/mcp_qa_server.py lines 95-110)

The database's `data` dict is modelled as its list of values in insertion
order; a missing / unconfigured database is `Option.none` at the retriever. -/

/-- `QADatabase.search_qa`: case-insensitive substring match of the query
against question, answer or any tag, then the optional category filter
(case-insensitive equality). -/
def search_qa (data : List QAEntry) (query : List Char) (category : Option (List Char)) :
    List QAEntry :=
  let query_lower := lowerCh query
  data.filter fun entry =>
    (containsSub query_lower (lowerCh entry.question)
      || containsSub query_lower (lowerCh entry.answer)
      || entry.tags.any fun tag => containsSub query_lower (lowerCh tag))
    && (match category with
        | none => true
        | some c => lowerCh entry.category == lowerCh c)

/-! ### Retriever — `RAGService.search_relevant_qa` (src/ai_service.py lines 54-69) -/

/-- `RAGService.search_relevant_qa`: `[]` when no database is configured
(`if not self.qa_database`), else the first three `search_qa` results
projected to context dicts. -/
def search_relevant_qa (qa_database : Option (List QAEntry)) (question : List Char)
    (category : Option (List Char)) : List ContextItem :=
  match qa_database with
  | none => []
  | some data =>
    ((search_qa data question category).take 3).map fun entry =>
      { question := entry.question, answer := entry.answer,
        category := entry.category, tags := entry.tags }

/-! ### Prompt construction — `RAGService._create_category_prompt`
(src/ai_service.py lines 100-137) -/

/-- `RAGService._create_category_prompt`. -/
def create_category_prompt (question category context : List Char) : List Char :=
  let base_prompt :=
    "질문: ".data ++ question ++ "\n카테고리: ".data ++ category ++ "\n\n".data ++ context
      ++ "\n\n위 정보를 참고하여 질문에 대한 전문적이고 정확한 답변을 한국어로 작성해주세요.".data
  if category == "수학".data then
    base_prompt ++ "\n\n수학 답변 가이드라인:\n- 공식이나 수식이 포함된 경우 LaTeX 형식으로 작성 (예: $x^2 + y^2 = r^2$)\n- 단계별로 풀이 과정을 명확히 설명\n- 필요시 그래프나 도형 설명 포함\n- 결과 검증 방법 제시".data
  else if category == "과학".data then
    base_prompt ++ "\n\n과학 답변 가이드라인:\n- 과학적 원리와 법칙을 명확히 설명\n- 실험이나 관찰 사례 포함\n- 관련 공식이나 화학식 제시\n- 실생활 응용 사례 언급".data
  else if category == "프로그래밍".data then
    base_prompt ++ "\n\n프로그래밍 답변 가이드라인:\n- 코드 예시를 포함하여 설명\n- 각 단계별 주석과 설명\n- 실행 결과나 출력 예시\n- 최적화나 대안 방법 제시".data
  else base_prompt

/-! ### Fallback — `RAGService._generate_fallback_answer`
(src/ai_service.py lines 212-233) -/

def fallback_math_template : List Char :=
  "이 수학 문제를 해결하기 위해서는 단계별로 접근해보겠습니다. 주어진 조건을 정리하고, 관련 공식을 적용해보세요. 구체적인 계산 과정이 필요하시면 더 자세한 정보를 제공해주세요.".data

def fallback_science_template : List Char :=
  "이 과학 질문에 답하기 위해서는 관련 원리와 법칙을 이해하는 것이 중요합니다. 실험적 관찰이나 이론적 배경을 함께 고려해보시기 바랍니다.".data

def fallback_programming_template : List Char :=
  "이 프로그래밍 문제를 해결하기 위해서는 알고리즘을 단계별로 설계하고 구현해야 합니다. 코드 예시와 함께 설명드리겠습니다.".data

def fallback_general_template : List Char :=
  "질문에 대한 답변을 위해 관련 정보를 수집하고 분석해보겠습니다. 더 구체적인 내용이나 맥락을 제공해주시면 더 정확한 답변을 드릴 수 있습니다.".data

/-- The `fallback_responses` dict, as its (key, value) pairs in source order. -/
def fallback_responses : List (List Char × List Char) :=
  [("수학".data, fallback_math_template),
   ("과학".data, fallback_science_template),
   ("프로그래밍".data, fallback_programming_template),
   ("일반".data, fallback_general_template)]

/-- `fallback_responses.get(category, fallback_responses['일반'])`. -/
def fallbackLookup (category : List Char) : List Char :=
  match fallback_responses.find? (fun p => p.1 == category) with
  | some p => p.2
  | none => fallback_general_template

/-- The `reasoning` string of every fallback answer. -/
def fallback_reasoning : List Char := "기본 템플릿 기반 답변 (AI 서비스 미사용)".data

/-- `RAGService._generate_fallback_answer`: the category's template (General's
when the category has none), a related-questions footer over the first three
sources when there are any, confidence 0.6. -/
def generate_fallback_answer (question category : List Char) (sources : List (List Char)) :
    AIResponse :=
  let base_answer := fallbackLookup category
  let base_answer :=
    if sources.isEmpty then base_answer
    else base_answer ++ "\n\n참고한 관련 질문들:\n".data
      ++ List.intercalate "\n".data ((sources.take 3).map fun source => "- ".data ++ source)
  { answer := base_answer, confidence := 0.6, category := category,
    sources := sources, reasoning := fallback_reasoning }

/-! ### Generator — `RAGService.generate_ai_answer` (src/ai_service.py lines 71-98)

The two outbound HTTP calls are the only non-determinism; each is modelled by
a `ProviderResult` parameter: `success a` stands for a 200 response whose
parsed body text is `a`, `failure` for anything that makes the Python call
raise (network error, non-success status, malformed response).  On `failure`
the modelled call returns `Except.error`, mirroring the raised exception that
`generate_ai_answer`'s `except` block catches. -/

/-- Outcome of one provider's HTTP call. -/
inductive ProviderResult where
  | success (answer : List Char)
  | failure
deriving DecidableEq

/-- `RAGService._call_openai` (src/ai_service.py lines 139-171): on a 200
response builds the `AIResponse` with confidence 0.9 and the OpenAI reasoning
tag, otherwise raises. -/
def call_openai (outcome : ProviderResult) (_prompt category : List Char)
    (sources : List (List Char)) : Except Unit AIResponse :=
  match outcome with
  | ProviderResult.success answer =>
    Except.ok { answer := answer, confidence := 0.9, category := category,
                sources := sources, reasoning := "OpenAI GPT-4를 사용한 답변".data }
  | ProviderResult.failure => Except.error ()

/-- `RAGService._call_claude` (src/ai_service.py lines 173-210): on a 200
response builds the `AIResponse` with confidence 0.9 and the Claude reasoning
tag; its own `except` clause re-raises, so any failure propagates. -/
def call_claude (outcome : ProviderResult) (_prompt category : List Char)
    (sources : List (List Char)) : Except Unit AIResponse :=
  match outcome with
  | ProviderResult.success answer =>
    Except.ok { answer := answer, confidence := 0.9, category := category,
                sources := sources, reasoning := "Claude AI를 사용한 답변".data }
  | ProviderResult.failure => Except.error ()

/-- The numbered context lines `f"{i}. Q: {q}\n   A: {a}\n"` of
`generate_ai_answer` (enumeration starts at 1). -/
def contextLines : Nat → List ContextItem → List Char
  | _, [] => []
  | i, item :: rest =>
    (Nat.repr i).data ++ ". Q: ".data ++ item.question ++ "\n   A: ".data ++ item.answer
      ++ "\n".data ++ contextLines (i + 1) rest

/-- `RAGService.generate_ai_answer`.  `openai_api_key` / `claude_api_key` model
the truthiness of the two credentials.  The body is the source's
`try: if openai / elif claude / else fallback` with the `except` clause
rendered by the two `Except.error` branches: a raising provider call lands in
the fallback. -/
def generate_ai_answer (openai_api_key claude_api_key : Bool)
    (openai_outcome claude_outcome : ProviderResult)
    (question category : List Char) (context : List ContextItem) : AIResponse :=
  let context_text :=
    if context.isEmpty then [] else "\n\n관련 정보:\n".data ++ contextLines 1 context
  let sources := context.map fun item => item.question
  let prompt := create_category_prompt question category context_text
  if openai_api_key then
    match call_openai openai_outcome prompt category sources with
    | Except.ok r => r
    | Except.error _ => generate_fallback_answer question category sources
  else if claude_api_key then
    match call_claude claude_outcome prompt category sources with
    | Except.ok r => r
    | Except.error _ => generate_fallback_answer question category sources
  else
    generate_fallback_answer question category sources

/-! ### Math formatter — `CategorySpecialization.format_math_answer`
(src/ai_service.py lines 238-260)

Each `re.sub` pass is a left-to-right scanner.  In all four patterns the
greedy pieces are maximal runs of a character class whose closing context
character is outside that class, so Python's backtracking can never succeed
after the maximal run fails; the scanners therefore commit to maximal runs.
A failed match attempt advances one character, a successful one continues
after the match (the replacement is not rescanned), as `re.sub` does.
Each scanner carries a step-count fuel initialised to the input length;
every step consumes at least one input character, so the fuel never runs
out on the initial call. -/

/-- Pass for `re.sub(r'(\w+)\*\*(\w+)', r'$\1^{\2}$', ...)`. -/
def subExpGo : Nat → List Char → List Char
  | 0, s => s
  | _ + 1, [] => []
  | fuel + 1, c :: cs =>
    if wordChar c then
      match (c :: cs).dropWhile wordChar with
      | '*' :: '*' :: r2 =>
        let run2 := r2.takeWhile wordChar
        if run2.isEmpty then c :: subExpGo fuel cs
        else
          '$' :: (c :: cs).takeWhile wordChar ++ '^' :: '\x7b' :: run2 ++ '\x7d' :: '$' ::
            subExpGo fuel (r2.dropWhile wordChar)
      | _ => c :: subExpGo fuel cs
    else c :: subExpGo fuel cs

/-- Pass for `re.sub(r'([a-zA-Z]\s*[+\-*/=]\s*[a-zA-Z0-9]+)', r'$\1$', ...)`. -/
def wrapAlphaGo : Nat → List Char → List Char
  | 0, s => s
  | _ + 1, [] => []
  | fuel + 1, c :: cs =>
    if c.isAlpha then
      let sp1 := cs.takeWhile spaceChar
      match cs.dropWhile spaceChar with
      | op :: r2 =>
        if opChar op then
          let sp2 := r2.takeWhile spaceChar
          let r3 := r2.dropWhile spaceChar
          let run := r3.takeWhile Char.isAlphanum
          if run.isEmpty then c :: wrapAlphaGo fuel cs
          else
            '$' :: c :: sp1 ++ op :: sp2 ++ run ++ '$' ::
              wrapAlphaGo fuel (r3.dropWhile Char.isAlphanum)
        else c :: wrapAlphaGo fuel cs
      | [] => c :: wrapAlphaGo fuel cs
    else c :: wrapAlphaGo fuel cs

/-- Pass for `re.sub(r'([0-9]+\s*[+\-*/=]\s*[0-9]+)', r'$\1$', ...)`. -/
def wrapNumGo : Nat → List Char → List Char
  | 0, s => s
  | _ + 1, [] => []
  | fuel + 1, c :: cs =>
    if c.isDigit then
      let run1 := (c :: cs).takeWhile Char.isDigit
      let r0 := (c :: cs).dropWhile Char.isDigit
      let sp1 := r0.takeWhile spaceChar
      match r0.dropWhile spaceChar with
      | op :: r2 =>
        if opChar op then
          let sp2 := r2.takeWhile spaceChar
          let r3 := r2.dropWhile spaceChar
          let run2 := r3.takeWhile Char.isDigit
          if run2.isEmpty then c :: wrapNumGo fuel cs
          else
            '$' :: run1 ++ sp1 ++ op :: sp2 ++ run2 ++ '$' ::
              wrapNumGo fuel (r3.dropWhile Char.isDigit)
        else c :: wrapNumGo fuel cs
      | [] => c :: wrapNumGo fuel cs
    else c :: wrapNumGo fuel cs

/-- Pass for `re.sub(r'(∫|∑|∏|√|∞|π|α|β|γ|δ|θ|λ|μ|σ|φ|ψ|ω)', r'$\1$', ...)`. -/
def wrapGlyphGo : Nat → List Char → List Char
  | 0, s => s
  | _ + 1, [] => []
  | fuel + 1, c :: cs =>
    if mathGlyph c then '$' :: c :: '$' :: wrapGlyphGo fuel cs
    else c :: wrapGlyphGo fuel cs

/-- `CategorySpecialization.format_math_answer`: the exponent rewrite, then
the three wrapping passes, in source order. -/
def format_math_answer (answer : List Char) : List Char :=
  let f1 := subExpGo answer.length answer
  let f2 := wrapAlphaGo f1.length f1
  let f3 := wrapNumGo f2.length f2
  wrapGlyphGo f3.length f3

/-! ### Code formatter — `CategorySpecialization.format_code_answer`
(src/ai_service.py lines 262-281) -/

/-- The backtick character. -/
def btick : Char := '\x60'

/-- The lazy tail of the fenced-block regex: split at the earliest occurrence
of a newline followed by a closing triple-backtick fence, returning the code
before it and the remainder after it. -/
def findFenceClose : List Char → Option (List Char × List Char)
  | '\n' :: '\x60' :: '\x60' :: '\x60' :: rest => some ([], rest)
  | c :: cs =>
    match findFenceClose cs with
    | some (code, rest) => some (c :: code, rest)
    | none => none
  | [] => none

/-- Pass for `re.sub(r'```(\w+)?\n(.*?)\n```', replace_code, answer,
flags=re.DOTALL)` where `replace_code` keeps the block's own language tag and
substitutes `language` when the tag is absent. -/
def fencedScanGo (language : List Char) : Nat → List Char → List Char
  | 0, s => s
  | _ + 1, [] => []
  | fuel + 1, '\x60' :: '\x60' :: '\x60' :: rest =>
    let tag := rest.takeWhile wordChar
    (match rest.dropWhile wordChar with
     | '\n' :: r2 =>
       match findFenceClose r2 with
       | some (code, after) =>
         btick :: btick :: btick :: (if tag.isEmpty then language else tag)
           ++ '\n' :: code ++ '\n' :: btick :: btick :: btick ::
             fencedScanGo language fuel after
       | none => btick :: fencedScanGo language fuel (btick :: btick :: rest)
     | _ => btick :: fencedScanGo language fuel (btick :: btick :: rest))
  | fuel + 1, c :: cs => c :: fencedScanGo language fuel cs

/-- First pass of `format_code_answer` at its input's length as fuel. -/
def fencedScan (language answer : List Char) : List Char :=
  fencedScanGo language answer.length answer

/-- Pass for `re.sub(r'`([^`]+)`', r'<code>\1</code>', formatted)`. -/
def inlineCodeGo : Nat → List Char → List Char
  | 0, s => s
  | _ + 1, [] => []
  | fuel + 1, c :: cs =>
    if c == btick then
      let run := cs.takeWhile fun d => d != btick
      if run.isEmpty then c :: inlineCodeGo fuel cs
      else
        match cs.dropWhile fun d => d != btick with
        | _ :: r2 => "<code>".data ++ run ++ "</code>".data ++ inlineCodeGo fuel r2
        | [] => c :: inlineCodeGo fuel cs
    else c :: inlineCodeGo fuel cs

/-- Second pass of `format_code_answer` at its input's length as fuel. -/
def inlineCodeScan (answer : List Char) : List Char :=
  inlineCodeGo answer.length answer

/-- `CategorySpecialization.format_code_answer`: the fenced-block
normalization pass, then the inline-backtick pass over its result. -/
def format_code_answer (answer language : List Char) : List Char :=
  inlineCodeScan (fencedScan language answer)

/-! ### Formatting dispatch of `ask_ai`
(src/web_app_with_replies.py lines 349-355) -/

/-- The `if category == '수학' / elif '프로그래밍' / else` dispatch of `ask_ai`;
the code formatter is called with its default language `'python'`. -/
def ask_ai_format (category answer : List Char) : List Char :=
  if category == "수학".data then format_math_answer answer
  else if category == "프로그래밍".data then format_code_answer answer "python".data
  else answer

/-! ### Lemmas -/

/-- Character-wise maps preserve prefixes. -/
theorem isPrefixCh_map (f : Char → Char) :
    ∀ needle hay : List Char, isPrefixCh needle hay = true →
      isPrefixCh (needle.map f) (hay.map f) = true := by
  intro needle
  induction needle with
  | nil => intro hay _; rfl
  | cons a as ih =>
    intro hay hp
    cases hay with
    | nil => simp [isPrefixCh] at hp
    | cons b bs =>
      simp only [isPrefixCh, Bool.and_eq_true, beq_iff_eq] at hp
      simp only [List.map_cons, isPrefixCh, Bool.and_eq_true, beq_iff_eq]
      exact ⟨by rw [hp.1], ih bs hp.2⟩

/-- Character-wise maps preserve substring containment. -/
theorem containsSub_map (f : Char → Char) (needle : List Char) :
    ∀ hay : List Char, containsSub needle hay = true →
      containsSub (needle.map f) (hay.map f) = true := by
  intro hay
  induction hay with
  | nil =>
    intro h
    cases needle with
    | nil => exact h
    | cons a as => simp [containsSub, isPrefixCh] at h
  | cons b bs ih =>
    intro h
    simp only [containsSub, Bool.or_eq_true] at h ⊢
    rcases h with h | h
    · exact Or.inl (isPrefixCh_map f needle (b :: bs) h)
    · exact Or.inr (ih h)

/-- Every math keyword is invariant under lower-casing (all are Hangul). -/
theorem math_keywords_lower_invariant :
    ∀ k ∈ math_keywords, k.map Char.toLower = k := by decide

/-! ### Claims -/

/-- Claim C5: a question containing a math keyword anywhere (in its raw or
lower-cased form) is classified `수학`; when keyword sets of several
categories match, source order Math, Science, Programming, Korean, English
decides; with no keyword match the category is `일반`. -/
theorem classify_question_category_spec (question : List Char) :
    (math_keywords.any (fun k => containsSub k question) = true →
      classify_question_category question = "수학".data)
    ∧ (math_keywords.any (fun k => containsSub k (lowerCh question)) = true →
      classify_question_category question = "수학".data)
    ∧ (math_keywords.any (fun k => containsSub k (lowerCh question)) = false →
      science_keywords.any (fun k => containsSub k (lowerCh question)) = true →
      classify_question_category question = "과학".data)
    ∧ (math_keywords.any (fun k => containsSub k (lowerCh question)) = false →
      science_keywords.any (fun k => containsSub k (lowerCh question)) = false →
      programming_keywords.any (fun k => containsSub k (lowerCh question)) = true →
      classify_question_category question = "프로그래밍".data)
    ∧ (math_keywords.any (fun k => containsSub k (lowerCh question)) = false →
      science_keywords.any (fun k => containsSub k (lowerCh question)) = false →
      programming_keywords.any (fun k => containsSub k (lowerCh question)) = false →
      korean_keywords.any (fun k => containsSub k (lowerCh question)) = true →
      classify_question_category question = "국어".data)
    ∧ (math_keywords.any (fun k => containsSub k (lowerCh question)) = false →
      science_keywords.any (fun k => containsSub k (lowerCh question)) = false →
      programming_keywords.any (fun k => containsSub k (lowerCh question)) = false →
      korean_keywords.any (fun k => containsSub k (lowerCh question)) = false →
      english_keywords.any (fun k => containsSub k (lowerCh question)) = true →
      classify_question_category question = "영어".data)
    ∧ (math_keywords.any (fun k => containsSub k (lowerCh question)) = false →
      science_keywords.any (fun k => containsSub k (lowerCh question)) = false →
      programming_keywords.any (fun k => containsSub k (lowerCh question)) = false →
      korean_keywords.any (fun k => containsSub k (lowerCh question)) = false →
      english_keywords.any (fun k => containsSub k (lowerCh question)) = false →
      classify_question_category question = "일반".data) := by
  have lift : math_keywords.any (fun k => containsSub k question) = true →
      math_keywords.any (fun k => containsSub k (lowerCh question)) = true := by
    intro h
    rcases List.any_eq_true.mp h with ⟨k, hk, hc⟩
    refine List.any_eq_true.mpr ⟨k, hk, ?_⟩
    have := containsSub_map Char.toLower k question hc
    rwa [math_keywords_lower_invariant k hk] at this
  refine ⟨?_, ?_, ?_, ?_, ?_, ?_, ?_⟩
  · intro h
    simp [classify_question_category, lift h]
  · intro h
    simp [classify_question_category, h]
  · intro h1 h2
    simp [classify_question_category, h1, h2]
  · intro h1 h2 h3
    simp [classify_question_category, h1, h2, h3]
  · intro h1 h2 h3 h4
    simp [classify_question_category, h1, h2, h3, h4]
  · intro h1 h2 h3 h4 h5
    simp [classify_question_category, h1, h2, h3, h4, h5]
  · intro h1 h2 h3 h4 h5
    simp [classify_question_category, h1, h2, h3, h4, h5]

/-- Witness for C5: a question containing both a math and a science keyword
is classified `수학`. -/
theorem classify_question_category_spec_witness :
    math_keywords.any (fun k => containsSub k "수학 과학".data) = true
    ∧ classify_question_category "수학 과학".data = "수학".data :=
  ⟨by decide, (classify_question_category_spec "수학 과학".data).1 (by decide)⟩

/-- Claim C6: the retriever returns at most three context items, returns `[]`
when no database is configured, and returns `[]` when the store search has no
matches (totally, hence without raising). -/
theorem search_relevant_qa_spec (qa_database : Option (List QAEntry))
    (question : List Char) (category : Option (List Char)) :
    (search_relevant_qa qa_database question category).length ≤ 3
    ∧ (qa_database = none → search_relevant_qa qa_database question category = [])
    ∧ (∀ data, qa_database = some data → search_qa data question category = [] →
        search_relevant_qa qa_database question category = []) := by
  refine ⟨?_, ?_, ?_⟩
  · cases qa_database with
    | none => simp [search_relevant_qa]
    | some data =>
      simp only [search_relevant_qa, List.length_map, List.length_take]
      exact min_le_left _ _
  · intro h
    subst h
    rfl
  · intro data h hs
    subst h
    simp [search_relevant_qa, hs]

/-- Witness for C6: empty store, hence no matches, hence empty context. -/
theorem search_relevant_qa_spec_witness :
    search_qa [] "수학".data none = []
    ∧ search_relevant_qa (some []) "수학".data none = [] :=
  ⟨rfl, (search_relevant_qa_spec (some []) "수학".data none).2.2 [] rfl rfl⟩

/-- Claim C3: with neither credential configured, `generate_ai_answer` has
confidence exactly 0.6 and the template reasoning string, and for non-empty
context appends the first three context question texts verbatim as the
related-questions footer. -/
theorem generate_ai_answer_no_provider_spec (openai_outcome claude_outcome : ProviderResult)
    (question category : List Char) (context : List ContextItem) :
    (generate_ai_answer false false openai_outcome claude_outcome
        question category context).confidence = 0.6
    ∧ (generate_ai_answer false false openai_outcome claude_outcome
        question category context).reasoning = fallback_reasoning
    ∧ (context = [] →
        (generate_ai_answer false false openai_outcome claude_outcome
          question category context).answer = fallbackLookup category)
    ∧ (context ≠ [] →
        (generate_ai_answer false false openai_outcome claude_outcome
          question category context).answer
        = fallbackLookup category ++ "\n\n참고한 관련 질문들:\n".data
          ++ List.intercalate "\n".data
              (((context.map fun item => item.question).take 3).map
                fun source => "- ".data ++ source)) := by
  refine ⟨?_, ?_, ?_, ?_⟩
  · simp [generate_ai_answer, generate_fallback_answer]
  · simp [generate_ai_answer, generate_fallback_answer]
  · intro h
    subst h
    simp [generate_ai_answer, generate_fallback_answer]
  · intro h
    have hne : (context.map fun item => item.question) ≠ [] := by
      simpa using h
    simp [generate_ai_answer, generate_fallback_answer, List.isEmpty_iff, hne]

/-- Witness for C3: one context item yields the footer with its question. -/
theorem generate_ai_answer_no_provider_spec_witness :
    ([⟨"q1".data, "a1".data, "일반".data, []⟩] : List ContextItem) ≠ []
    ∧ (generate_ai_answer false false ProviderResult.failure ProviderResult.failure
        "질문".data "일반".data [⟨"q1".data, "a1".data, "일반".data, []⟩]).answer
      = fallbackLookup "일반".data ++ "\n\n참고한 관련 질문들:\n".data
        ++ List.intercalate "\n".data
            (((([⟨"q1".data, "a1".data, "일반".data, []⟩] : List ContextItem).map
                fun item => item.question).take 3).map
              fun source => "- ".data ++ source) :=
  ⟨by decide,
    (generate_ai_answer_no_provider_spec ProviderResult.failure ProviderResult.failure
      "질문".data "일반".data [⟨"q1".data, "a1".data, "일반".data, []⟩]).2.2.2 (by decide)⟩

/-- Claim C4: with some credential configured but every attempted provider
call failing, `generate_ai_answer` equals the no-provider run and equals the
fallback answer (the raised provider exceptions are caught inside it: the
function is total and never propagates them). -/
theorem generate_ai_answer_total_failure (openai_api_key claude_api_key : Bool)
    (question category : List Char) (context : List ContextItem)
    (h : (openai_api_key || claude_api_key) = true) :
    generate_ai_answer openai_api_key claude_api_key
        ProviderResult.failure ProviderResult.failure question category context
      = generate_ai_answer false false
          ProviderResult.failure ProviderResult.failure question category context
    ∧ generate_ai_answer openai_api_key claude_api_key
        ProviderResult.failure ProviderResult.failure question category context
      = generate_fallback_answer question category (context.map fun item => item.question) := by
  cases openai_api_key <;> cases claude_api_key <;>
    simp_all [generate_ai_answer, call_openai, call_claude]

/-- Witness for C4: both credentials configured, both calls failing. -/
theorem generate_ai_answer_total_failure_witness :
    ((true || true) = true)
    ∧ generate_ai_answer true true ProviderResult.failure ProviderResult.failure
        "q".data "수학".data []
      = generate_ai_answer false false ProviderResult.failure ProviderResult.failure
          "q".data "수학".data [] :=
  ⟨rfl, (generate_ai_answer_total_failure true true "q".data "수학".data [] rfl).1⟩

/-- Counterexample to claim C1: with both credentials configured, provider A
failing and provider B able to succeed, `generate_ai_answer` returns the
templated fallback — provider B is never attempted. -/
theorem generate_ai_answer_skips_claude_counterexample :
    generate_ai_answer true true ProviderResult.failure (ProviderResult.success "ok".data)
        "q".data "일반".data []
      = generate_fallback_answer "q".data "일반".data []
    ∧ (generate_ai_answer true true ProviderResult.failure (ProviderResult.success "ok".data)
        "q".data "일반".data []).reasoning ≠ "Claude AI를 사용한 답변".data
    ∧ (generate_ai_answer true true ProviderResult.failure (ProviderResult.success "ok".data)
        "q".data "일반".data []).confidence = 0.6 := by
  refine ⟨rfl, by decide, rfl⟩

/-- Claim C1 as amended: a ProviderA failure advances directly to the
templated fallback even when provider B is configured; provider B is
attempted only when provider A's credential is absent. -/
theorem generate_ai_answer_provider_chain (claude_api_key : Bool)
    (claude_outcome : ProviderResult) (question category : List Char)
    (context : List ContextItem) :
    generate_ai_answer true claude_api_key ProviderResult.failure claude_outcome
        question category context
      = generate_fallback_answer question category (context.map fun item => item.question)
    ∧ ∀ answer, generate_ai_answer false true ProviderResult.failure
        (ProviderResult.success answer) question category context
      = { answer := answer, confidence := 0.9, category := category,
          sources := context.map fun item => item.question,
          reasoning := "Claude AI를 사용한 답변".data } := by
  constructor
  · simp [generate_ai_answer, call_openai]
  · intro answer
    simp [generate_ai_answer, call_claude]

/-- Counterexample to claim C2: `"$a+b$"` already contains inline-math
delimiters, yet applying `format_math_answer` twice differs from applying it
once. -/
theorem format_math_answer_idempotence_counterexample :
    containsSub "$".data "$a+b$".data = true
    ∧ format_math_answer (format_math_answer "$a+b$".data)
        ≠ format_math_answer "$a+b$".data := by
  refine ⟨by decide, by decide⟩

/-- Claim C2 as amended: `format_math_answer` is not idempotent on inputs
already containing inline-math delimiters; each application wraps an
already-delimited operator expression in one more pair of delimiters. -/
theorem format_math_answer_adds_delimiter_layer :
    format_math_answer "$a+b$".data = "$$a+b$$".data
    ∧ format_math_answer "$$a+b$$".data = "$$$a+b$$$".data := by
  refine ⟨by decide, by decide⟩

/-- Claim C7: on the literal input `"x**2 + y**2 = r**2"` the math formatter
rewrites every `base**exp` into the caret-with-braces form wrapped in the
inline-math delimiter, and the output contains `x^{2}`. -/
theorem format_math_answer_exponent_scenario :
    format_math_answer "x**2 + y**2 = r**2".data
      = "$x^\x7b2\x7d$ + $y^\x7b2\x7d$ = $r^\x7b2\x7d$".data
    ∧ containsSub "x^\x7b2\x7d".data (format_math_answer "x**2 + y**2 = r**2".data) = true := by
  refine ⟨by decide, by decide⟩

/-- Counterexample to claim C8: the fenced block `"```\nx = 1\n```"` does not
survive `format_code_answer` as a fenced block carrying a language tag — the
inline-backtick pass rewrites the normalized fence's interior, and no triple
backtick remains in the output. -/
theorem format_code_answer_fence_counterexample :
    format_code_answer "```\nx = 1\n```".data "python".data
      = "``<code>python\nx = 1\n</code>``".data
    ∧ containsSub "```".data
        (format_code_answer "```\nx = 1\n```".data "python".data) = false := by
  refine ⟨by decide, by decide⟩

/-- Claim C8 as amended: the first pass does normalize an untagged fence to
carry the default language tag, but the second pass then rewrites the span
between the normalized fence's backticks into an inline-code span, so fenced
blocks do not survive; inline single-backtick spans in fence-free text are
rewritten to `<code>` spans with the rest unchanged. -/
theorem format_code_answer_pass_behavior :
    fencedScan "python".data "```\nx = 1\n```".data = "```python\nx = 1\n```".data
    ∧ inlineCodeScan "```python\nx = 1\n```".data = "``<code>python\nx = 1\n</code>``".data
    ∧ format_code_answer "use `x` and `y`".data "python".data
        = "use <code>x</code> and <code>y</code>".data := by
  refine ⟨by decide, by decide, by decide⟩

/-- Claim C9: the `ask_ai` formatting stage applies the math formatter for
`수학`, the code formatter for `프로그래밍`, and returns the generated text
unchanged for every other category. -/
theorem ask_ai_format_spec (category answer : List Char) :
    (category ≠ "수학".data → category ≠ "프로그래밍".data →
      ask_ai_format category answer = answer)
    ∧ ask_ai_format "수학".data answer = format_math_answer answer
    ∧ ask_ai_format "프로그래밍".data answer = format_code_answer answer "python".data := by
  refine ⟨?_, ?_, ?_⟩
  · intro h1 h2
    simp [ask_ai_format, h1, h2]
  · simp only [ask_ai_format]
    rw [if_pos (by decide)]
  · simp only [ask_ai_format]
    rw [if_neg (by decide), if_pos (by decide)]

/-- Witness for C9: the `영어` category passes through unformatted. -/
theorem ask_ai_format_spec_witness :
    ("영어".data ≠ "수학".data)
    ∧ ask_ai_format "영어".data "abc".data = "abc".data :=
  ⟨by decide, (ask_ai_format_spec "영어".data "abc".data).1 (by decide) (by decide)⟩

/-- Claim C10: the fallback table's keys are exactly `수학`, `과학`,
`프로그래밍`, `일반`; any other category gets the General template while the
returned answer still reports the input category. -/
theorem fallback_unknown_category_spec (question category : List Char)
    (sources : List (List Char))
    (h1 : category ≠ "수학".data) (h2 : category ≠ "과학".data)
    (h3 : category ≠ "프로그래밍".data) (h4 : category ≠ "일반".data) :
    fallback_responses.map Prod.fst
      = ["수학".data, "과학".data, "프로그래밍".data, "일반".data]
    ∧ fallbackLookup category = fallback_general_template
    ∧ (generate_fallback_answer question category sources).category = category := by
  refine ⟨rfl, ?_, ?_⟩
  · have e1 : (("수학".data : List Char) == category) = false :=
      beq_eq_false_iff_ne.mpr (Ne.symm h1)
    have e2 : (("과학".data : List Char) == category) = false :=
      beq_eq_false_iff_ne.mpr (Ne.symm h2)
    have e3 : (("프로그래밍".data : List Char) == category) = false :=
      beq_eq_false_iff_ne.mpr (Ne.symm h3)
    have e4 : (("일반".data : List Char) == category) = false :=
      beq_eq_false_iff_ne.mpr (Ne.symm h4)
    simp [fallbackLookup, fallback_responses, List.find?, e1, e2, e3, e4]
  · simp [generate_fallback_answer]

/-- Witness for C10: the `국어` category falls back to the General template
and is still reported as the answer's category. -/
theorem fallback_unknown_category_spec_witness :
    fallbackLookup "국어".data = fallback_general_template
    ∧ (generate_fallback_answer "q".data "국어".data []).category = "국어".data :=
  ⟨(fallback_unknown_category_spec "q".data "국어".data []
      (by decide) (by decide) (by decide) (by decide)).2.1,
   (fallback_unknown_category_spec "q".data "국어".data []
      (by decide) (by decide) (by decide) (by decide)).2.2⟩

end AiQa
